import Mathlib

/-!
Verification of the golem worker-executor contract layer.

The development shallowly embeds, in Lean 4, the parts of the repository
that the checked properties are about:

* the fuel-management bookkeeping (`FuelState`, `is_out_of_fuel`,
  `fuelBorrow`, `return_fuel`),
* the live/replay mode of the invocation management interface,
* the failure-classification hook (`on_invocation_failure`),
* the indexed resource store,
* the update-management snapshotting bracket,
* replay of a recorded oplog against a fresh instance,
* the concrete `FileSystemNode` gRPC conversion code,
* the concrete `keyvalue::atomic` host functions, and
* the concrete protobuf `WorkerBinding` conversion.

Where the repository only declares a trait and its implementation lives
outside of the sources at hand, the corresponding definition is modelled
from the specification text and its doc comment says so explicitly.
-/

/- ### Fuel management -/

/-- Modelled from the spec: the bookkeeping state of the `FuelManagement`
trait implementation (missing from the sources, which only declare the
trait).  `minLevel` is the pre-calculated minimum engine fuel level at
which the borrowed fuel is exhausted; `lastLevel` is the engine level at
the last reconciliation point; `borrowedCum`/`returnedCum` are the
cumulative amounts borrowed from and returned to the external limiter. -/
structure FuelState where
  minLevel : Int
  lastLevel : Int
  borrowedCum : Nat
  returnedCum : Nat
deriving DecidableEq, Repr

/-- Modelled from the spec: a fresh fuel state at engine level `level`,
with no outstanding borrowed fuel. -/
def initFuel (level : Int) : FuelState :=
  { minLevel := level, lastLevel := level, borrowedCum := 0, returnedCum := 0 }

/-- Modelled from the spec: `is_out_of_fuel(current_level)` is a pure
predicate comparing the engine-reported level against the internally
tracked minimum. -/
def is_out_of_fuel (s : FuelState) (current_level : Int) : Bool :=
  current_level ≤ s.minLevel

/-- Modelled from the spec: borrowing `grant` units of fuel from the
limiter lowers the pre-calculated minimum level and records the amount
in the cumulative bookkeeping.  Both `borrow_fuel` and the synchronous
`borrow_fuel_sync` update the bookkeeping this way. -/
def fuelBorrow (s : FuelState) (grant : Nat) : FuelState :=
  { s with minLevel := s.minLevel - grant, borrowedCum := s.borrowedCum + grant }

/-- Modelled from the spec: reconciling at engine level `level` computes
the unused remainder of the borrowed fuel (the distance from the tracked
minimum), returns it to the limiter, and resets the outstanding borrow. -/
def fuelReturn (s : FuelState) (level : Int) : FuelState × Nat :=
  let remainder := (level - s.minLevel).toNat
  ({ minLevel := level, lastLevel := level,
     borrowedCum := s.borrowedCum, returnedCum := s.returnedCum + remainder },
   remainder)

/-- Modelled from the spec: `return_fuel(current_level)` performs the
reconciliation and fails only when the external limiter service fails;
the limiter interaction is abstracted by its outcome. -/
def return_fuel (limiter : Except String Unit) (s : FuelState) (level : Int) :
    Except String (FuelState × Nat) :=
  match limiter with
  | Except.error e => Except.error e
  | Except.ok _ => Except.ok (fuelReturn s level)

/-- Modelled from the spec: the amount of fuel needed so that a borrow
makes `is_out_of_fuel` false at engine level `level`. -/
def fuelDeficit (s : FuelState) (level : Int) : Int :=
  s.minLevel - level + 1

/-- One call of the fuel-management interface. -/
inductive FuelOp where
  | borrow (grant : Nat)
  | borrowSync (grant : Nat)
  | ret (level : Int)
deriving DecidableEq, Repr

/-- Applying one fuel-management call to the bookkeeping state. -/
def fuelStep (s : FuelState) : FuelOp → FuelState
  | FuelOp.borrow g => fuelBorrow s g
  | FuelOp.borrowSync g => fuelBorrow s g
  | FuelOp.ret level => (fuelReturn s level).1

/-- Applying a sequence of fuel-management calls. -/
def fuelRun (s : FuelState) (ops : List FuelOp) : FuelState :=
  ops.foldl fuelStep s

/-- A call sequence is valid when every reconciliation happens at an
engine level no higher than the level at the previous reconciliation:
the execution engine only ever consumes fuel. -/
def fuelValid : FuelState → List FuelOp → Bool
  | _, [] => true
  | s, op :: rest =>
    (match op with
     | FuelOp.ret level => decide (level ≤ s.lastLevel)
     | _ => true) && fuelValid (fuelStep s op) rest

/-- The inductive well-formedness invariant of the fuel bookkeeping. -/
def fuelWF (s : FuelState) : Prop :=
  s.minLevel ≤ s.lastLevel ∧
    s.returnedCum + (s.lastLevel - s.minLevel).toNat ≤ s.borrowedCum

/- ### Invocation management: live/replay mode -/

/-- Modelled from the spec: the replay progress of a worker.  `oplogIdx`
is the index of the next oplog entry to process, `logHead` the length of
the recorded log; the worker is replaying while `oplogIdx < logHead`. -/
structure InvState where
  oplogIdx : Nat
  logHead : Nat
deriving DecidableEq, Repr

/-- Modelled from the spec: live mode means replay has caught up with
the head of the recorded log. -/
def is_live (s : InvState) : Bool :=
  s.logHead ≤ s.oplogIdx

/-- Modelled from the spec: replay mode means recorded entries remain to
be consumed. -/
def is_replay (s : InvState) : Bool :=
  s.oplogIdx < s.logHead

/-- An event in the life of the invocation state: one execution step
(consuming a recorded entry during replay, or writing a new one live),
or a suspension followed by resumption against a recorded log. -/
inductive InvEvent where
  | hostStep
  | suspendResume (newHead : Nat)
deriving DecidableEq, Repr

/-- Modelled from the spec: during replay a step consumes the next
recorded entry; in live mode a step appends a new entry (keeping the
index at the head); suspension discards the instance, and resumption
starts a fresh replay of the recorded log. -/
def invStep (s : InvState) : InvEvent → InvState
  | InvEvent.hostStep =>
    if s.oplogIdx < s.logHead then
      { s with oplogIdx := s.oplogIdx + 1 }
    else
      { oplogIdx := s.oplogIdx + 1, logHead := s.oplogIdx + 1 }
  | InvEvent.suspendResume h => { oplogIdx := 0, logHead := h }

/- ### Invocation hooks: failure classification -/

/-- Modelled from the spec: the classification of a runtime failure. -/
inductive TrapTypeM where
  | exitTrap
  | resourceExhaustion
  | hostErrorUnknown
deriving DecidableEq, Repr

/-- Modelled from the spec: the reason execution should stop. -/
inductive InterruptKindM where
  | interrupt
  | suspend
  | restart
  | jump
deriving DecidableEq, Repr

/-- Modelled from the spec: the output of failure classification. -/
inductive RetryDecisionM where
  | retryImmediately
  | retryAfterDelay (delayMs : Nat)
  | fail
deriving DecidableEq, Repr

/-- Modelled from the spec: how one invocation of the worker ended. -/
inductive InvocationOutcome where
  | success
  | interrupted (kind : InterruptKindM)
  | trapped (trap : TrapTypeM)
deriving DecidableEq, Repr

/-- Modelled from the spec: the externally configured retry policy
(maximum attempt bound and backoff schedule parameters). -/
structure RetryConfig where
  maxAttempts : Nat
  minDelayMs : Nat
  multiplier : Nat
deriving DecidableEq, Repr

/-- Modelled from the spec: exponential backoff delay before the next
retry attempt. -/
def backoffDelay (cfg : RetryConfig) (retryCount : Nat) : Nat :=
  cfg.minDelayMs * cfg.multiplier ^ retryCount

/-- Modelled from the spec: the small fixed number of times an unknown
host-error trap is retried before failing permanently. -/
def unknownErrorRetryBound : Nat := 3

/-- Modelled from the spec: the failure-classification hook.  A
deliberate program exit is never retried; resource exhaustion is retried
with backoff while the retry count is below the configured bound;
unknown host errors are retried a small fixed number of times. -/
def on_invocation_failure (cfg : RetryConfig) (previousRetries : Nat)
    (trap : TrapTypeM) : RetryDecisionM :=
  match trap with
  | TrapTypeM.exitTrap => RetryDecisionM.fail
  | TrapTypeM.resourceExhaustion =>
    if previousRetries < cfg.maxAttempts then
      RetryDecisionM.retryAfterDelay (backoffDelay cfg previousRetries)
    else
      RetryDecisionM.fail
  | TrapTypeM.hostErrorUnknown =>
    if previousRetries < unknownErrorRetryBound then
      RetryDecisionM.retryAfterDelay (backoffDelay cfg previousRetries)
    else
      RetryDecisionM.fail

/-- Modelled from the spec: the dispatcher only passes genuine traps to
`on_invocation_failure`; a success or an interruption never reaches the
hook. -/
def failureHookTrap : InvocationOutcome → Option TrapTypeM
  | InvocationOutcome.success => none
  | InvocationOutcome.interrupted _ => none
  | InvocationOutcome.trapped t => some t

/- ### Indexed resource store -/

/-- A key of the indexed resource store: the resource type name together
with the exact serialized textual form of the constructor parameters. -/
structure ResKey where
  name : String
  params : List String
deriving DecidableEq, Repr

/-- Modelled from the spec: the indexed resource store, a mapping from
keys to worker resource identifiers, represented as an association list
with the most recent insertion first. -/
abbrev ResStore := List (ResKey × Nat)

/-- Modelled from the spec: pure lookup in the indexed resource store. -/
def get_indexed_resource : ResStore → ResKey → Option Nat
  | [], _ => none
  | (k', v) :: rest, k => if k' = k then some v else get_indexed_resource rest k

/-- Modelled from the spec: inserting a new mapping. -/
def store_indexed_resource (s : ResStore) (k : ResKey) (v : Nat) : ResStore :=
  (k, v) :: s

/-- Modelled from the spec: removing the mapping for a key; a total
function, so dropping an absent key is a no-op rather than a failure. -/
def drop_indexed_resource : ResStore → ResKey → ResStore
  | [], _ => []
  | (k', v) :: rest, k =>
    if k' = k then drop_indexed_resource rest k
    else (k', v) :: drop_indexed_resource rest k

/-- One call of the mutating indexed-resource-store interface. -/
inductive ResOp where
  | store (k : ResKey) (v : Nat)
  | drop (k : ResKey)
deriving DecidableEq, Repr

/-- Applying one store/drop call. -/
def resApply (s : ResStore) : ResOp → ResStore
  | ResOp.store k v => store_indexed_resource s k v
  | ResOp.drop k => drop_indexed_resource s k

/-- Applying a sequence of store/drop calls. -/
def resRun (s : ResStore) (ops : List ResOp) : ResStore :=
  ops.foldl resApply s

/-- The value the last write (store or drop) in `ops` leaves behind for
key `k`, starting from the value `init` visible before `ops`. -/
def lastWrite (init : Option Nat) (ops : List ResOp) (k : ResKey) : Option Nat :=
  ops.foldl
    (fun acc op =>
      match op with
      | ResOp.store k' v => if k' = k then some v else acc
      | ResOp.drop k' => if k' = k then none else acc)
    init

/- ### Update management: snapshotting bracket -/

/-- An observable persistence event: the begin/end markers of the
snapshotting bracket and an oplog write. -/
inductive PEvent where
  | beginSnap
  | endSnap
  | write
deriving DecidableEq, Repr

/-- Modelled from the spec: the persistence-relevant state of the update
manager: whether a snapshotting call is in progress, and the log of
observed persistence events. -/
structure SnapState where
  snapshotting : Bool
  log : List PEvent
deriving DecidableEq, Repr

/-- Modelled from the spec: marks the beginning of a snapshot function
call, disabling persistence. -/
def begin_call_snapshotting_function (s : SnapState) : SnapState :=
  { snapshotting := true, log := s.log ++ [PEvent.beginSnap] }

/-- Modelled from the spec: marks the end of a snapshot function call,
re-enabling persistence. -/
def end_call_snapshotting_function (s : SnapState) : SnapState :=
  { snapshotting := false, log := s.log ++ [PEvent.endSnap] }

/-- Modelled from the spec: an oplog write is suppressed while a
snapshotting call is in progress. -/
def oplog_write (s : SnapState) : SnapState :=
  if s.snapshotting then s else { s with log := s.log ++ [PEvent.write] }

/-- A bracketed body that attempts `n` oplog writes. -/
def attemptWrites (s : SnapState) : Nat → SnapState
  | 0 => s
  | n + 1 => attemptWrites (oplog_write s) n

/-- Modelled from the spec: the scoped acquisition-with-guaranteed-release
discipline around a snapshotting call: begin, run the body (which may
attempt writes and may fail), and always end, also on failure paths. -/
def call_snapshotting_function (s : SnapState) (writesAttempted : Nat)
    (outcome : Except String Unit) : SnapState × Except String Unit :=
  let s1 := begin_call_snapshotting_function s
  let s2 := attemptWrites s1 writesAttempted
  (end_call_snapshotting_function s2, outcome)

/- ### External operations: replay of a recorded history -/

/-- Modelled from the spec: a deterministic invocation body.  It either
returns its output bytes or performs a host call and continues
deterministically with the host's response. -/
inductive HostComp where
  | ret (output : List Nat)
  | hostCall (k : Nat → HostComp)

/-- Modelled from the spec: a live run of one invocation against the
real host, modelled as an oracle of responses indexed by position.
Returns the output bytes, the recorded events (the host responses, in
the order they were obtained) and the next oracle position. -/
def liveRun (oracle : Nat → Nat) : HostComp → Nat → List Nat × List Nat × Nat
  | HostComp.ret out, pos => (out, [], pos)
  | HostComp.hostCall k, pos =>
    let r := oracle pos
    let p := liveRun oracle (k r) (pos + 1)
    (p.1, r :: p.2.1, p.2.2)

/-- Modelled from the spec: replaying one invocation consumes recorded
events from the front, in their original order, instead of performing
live side effects.  Returns the output and the unconsumed events, or
`none` when the record is exhausted prematurely. -/
def replayRun : HostComp → List Nat → Option (List Nat × List Nat)
  | HostComp.ret out, evs => some (out, evs)
  | HostComp.hostCall _, [] => none
  | HostComp.hostCall k, e :: rest => replayRun (k e) rest

/-- Modelled from the spec: a live run of a whole sequence of
invocations, concatenating the recorded events. -/
def liveWorker (oracle : Nat → Nat) :
    List HostComp → Nat → List (List Nat) × List Nat × Nat
  | [], pos => ([], [], pos)
  | c :: cs, pos =>
    let p := liveRun oracle c pos
    let q := liveWorker oracle cs p.2.2
    (p.1 :: q.1, p.2.1 ++ q.2.1, q.2.2)

/-- Modelled from the spec: replaying a sequence of invocations against
a fresh instance, consuming the recorded events in order. -/
def replayWorker : List HostComp → List Nat → Option (List (List Nat) × List Nat)
  | [], evs => some ([], evs)
  | c :: cs, evs =>
    match replayRun c evs with
    | none => none
    | some (out, rest) =>
      match replayWorker cs rest with
      | none => none
      | some (outs, rest2) => some (out :: outs, rest2)

/-- Final worker status, as far as replay equivalence is concerned. -/
inductive WStatusM where
  | idle
  | failed
deriving DecidableEq, Repr

/-- Modelled from the spec: a live run that completes all its
invocations leaves the worker idle. -/
def liveFinalStatus (_prog : List HostComp) : WStatusM :=
  WStatusM.idle

/-- Modelled from the spec: the final status after replay: idle when the
whole recorded history could be replayed, failed otherwise. -/
def replayFinalStatus (prog : List HostComp) (evs : List Nat) : WStatusM :=
  match replayWorker prog evs with
  | some _ => WStatusM.idle
  | none => WStatusM.failed

/-- Modelled from the spec: `prepare_instance` replays the recorded
history into a fresh instance (missing from the sources, which only
declare the `ExternalOperations` trait). -/
def prepare_instance (prog : List HostComp) (recorded : List Nat) :
    Option (List (List Nat) × List Nat) :=
  replayWorker prog recorded

/- ### FileSystemNode: the concrete gRPC conversion code -/

deriving instance DecidableEq for Except

/-- An I/O error, abstracted by its display message. -/
structure IoErrM where
  msg : String
deriving DecidableEq, Repr

/-- The result of `cap_std`'s `file_type()`: the conversion code only
inspects `is_dir()`. -/
structure FileTypeM where
  isDir : Bool
deriving DecidableEq, Repr

/-- The parts of `cap_std` file metadata read by `convert_metadata`:
`modifiedSecs` is `some s` exactly when both `modified()` and
`duration_since(UNIX_EPOCH)` succeed, and `size` is the file size. -/
structure MetadataM where
  modifiedSecs : Option Int
  size : Nat
deriving DecidableEq, Repr

/-- A directory entry, with the fallible `file_type()` and `metadata()`
probes represented by their outcomes. -/
structure DirEntryM where
  name : String
  fileType : Except IoErrM FileTypeM
  metadata : Except IoErrM MetadataM
deriving DecidableEq, Repr

/-- The protobuf node-type enum. -/
inductive NodeTypeM where
  | directory
  | file
deriving DecidableEq, Repr

/-- The protobuf permission enum; the code only ever sets `ReadWrite`. -/
inductive PermissionM where
  | readWrite
deriving DecidableEq, Repr

/-- The protobuf `FileSystemNode` message; optional fields that the
conversion code may leave unset are `Option`s, `none` meaning unset. -/
structure FileSystemNodeG where
  name : String
  nodeType : Option NodeTypeM
  permissions : Option PermissionM
  lastModified : Option Int
  size : Option Nat
deriving DecidableEq, Repr

/-- Embedding of `FileSystemNode::convert_metadata`: the name is always
copied; the node type is set only when `file_type()` succeeds (directory
when `is_dir()`, file otherwise); permissions and last-modified are set
only when `metadata()` succeeds; the size is set only for a known file
with successful metadata. -/
def convert_metadata (e : DirEntryM) : FileSystemNodeG :=
  let use_size :=
    match e.fileType with
    | Except.ok ft => !ft.isDir
    | Except.error _ => false
  { name := e.name
    nodeType :=
      match e.fileType with
      | Except.ok ft =>
        some (if ft.isDir then NodeTypeM.directory else NodeTypeM.file)
      | Except.error _ => none
    permissions :=
      match e.metadata with
      | Except.ok _ => some PermissionM.readWrite
      | Except.error _ => none
    lastModified :=
      match e.metadata with
      | Except.ok m => m.modifiedSecs
      | Except.error _ => none
    size :=
      match e.metadata with
      | Except.ok m => if use_size then some m.size else none
      | Except.error _ => none }

/-- The structured executor error; only the filesystem variant is
relevant here. -/
inductive GolemErrorM where
  | fileSystem (details : String)
deriving DecidableEq, Repr

/-- Embedding of `FileSystemNode::get_files_grpc_internal`: iterating
the directory converts each successfully read entry and stops with a
structured filesystem error at the first iteration failure. -/
def get_files_grpc_internal :
    List (Except IoErrM DirEntryM) → Except GolemErrorM (List FileSystemNodeG)
  | [] => Except.ok []
  | Except.error e :: _ => Except.error (GolemErrorM.fileSystem e.msg)
  | Except.ok d :: rest =>
    match get_files_grpc_internal rest with
    | Except.error err => Except.error err
    | Except.ok nodes => Except.ok (convert_metadata d :: nodes)

/-- One item of the gRPC `GetFileResponse` stream. -/
inductive GetFileResult where
  | successFile (content : List Nat)
  | successDir (nodes : List FileSystemNodeG)
  | failure (err : GolemErrorM)
deriving DecidableEq, Repr

/-- Embedding of the `chunk_to_grpc` closure in `get_file_grpc`: a chunk
read failure becomes a structured filesystem error inside the response. -/
def chunk_to_grpc (bytes : Except IoErrM (List Nat)) : GetFileResult :=
  match bytes with
  | Except.ok bs => GetFileResult.successFile bs
  | Except.error e => GetFileResult.failure (GolemErrorM.fileSystem e.msg)

/-- A filesystem node as handed to `get_file_grpc`: a file is its stream
of chunk-read outcomes, a directory its entry-read outcomes. -/
inductive FsNodeInput where
  | file (chunks : List (Except IoErrM (List Nat)))
  | directory (entries : List (Except IoErrM DirEntryM))
deriving DecidableEq, Repr

/-- Embedding of `FileSystemNode::get_file_grpc`: a file yields one
response per chunk, a directory a single listing-or-error response. -/
def get_file_grpc : FsNodeInput → List GetFileResult
  | FsNodeInput.file chunks => chunks.map chunk_to_grpc
  | FsNodeInput.directory entries =>
    match get_files_grpc_internal entries with
    | Except.ok nodes => [GetFileResult.successDir nodes]
    | Except.error err => [GetFileResult.failure err]

/- ### keyvalue::atomic host functions -/

/-- The observable way a host function call ends: a returned value, a
returned host error, or a Rust panic. -/
inductive HostResult (α : Type) where
  | ok (v : α)
  | err (e : String)
  | panicked (msg : String)
deriving DecidableEq, Repr

/-- A host function call outcome together with the call metrics it
recorded. -/
structure HostCallOutcome (α : Type) where
  metrics : List (String × String)
  result : HostResult α
deriving DecidableEq, Repr

/-- Embedding of `keyvalue::atomic` `increment` on `DurableWorkerCtx`:
acquire the host-function permit (propagating its failure), record the
call metric, then panic via `unimplemented!`. -/
def kv_atomic_increment (permit : Except String Unit) (_bucket : Nat)
    (_key : String) (_delta : Nat) : HostCallOutcome Nat :=
  match permit with
  | Except.error e => { metrics := [], result := HostResult.err e }
  | Except.ok _ =>
    { metrics := [("keyvalue::atomic", "increment")],
      result := HostResult.panicked "increment" }

/-- Embedding of `keyvalue::atomic` `compare_and_swap` on
`DurableWorkerCtx`: acquire the host-function permit (propagating its
failure), record the call metric, then panic via `unimplemented!`. -/
def kv_atomic_compare_and_swap (permit : Except String Unit) (_bucket : Nat)
    (_key : String) (_old _new : Nat) : HostCallOutcome Bool :=
  match permit with
  | Except.error e => { metrics := [], result := HostResult.err e }
  | Except.ok _ =>
    { metrics := [("keyvalue::atomic", "compare_and_swap")],
      result := HostResult.panicked "compare_and_swap" }

/- ### WorkerBinding protobuf conversion -/

/-- A rib expression, abstracted: the conversion code only distinguishes
the empty expression from converted ones. -/
inductive ExprM where
  | emptyExpr
  | parsed (s : String)
deriving DecidableEq, Repr

/-- The internal worker-binding type enum. -/
inductive WorkerBindingTypeM where
  | defaultBinding
  | fileServer
deriving DecidableEq, Repr

/-- The protobuf `WorkerBinding` message.  Each fallible sub-conversion
performed by external crates (`Expr::try_from`, the component-id and
idempotency-key conversions) is abstracted by its outcome, so a present
field carries the `Except` result its `try_into` would produce. -/
structure GrpcWorkerBinding where
  component : Option (Except String Nat)
  workerName : Option (Except String ExprM)
  idempotencyKey : Option (Except String ExprM)
  response : Option (Except String ExprM)
  bindingType : Option Int
deriving DecidableEq, Repr

/-- The prost-generated accessor for the optional `binding_type` enum
field: a missing or unrecognized value falls back to the default
variant; 1 is `FileServer`. -/
def bindingTypeAccessor (o : Option Int) : WorkerBindingTypeM :=
  match o with
  | some 1 => WorkerBindingTypeM.fileServer
  | _ => WorkerBindingTypeM.defaultBinding

/-- The internal `GolemWorkerBinding` produced by the conversion. -/
structure GolemWorkerBinding where
  componentId : Nat
  workerName : ExprM
  idempotencyKey : Option ExprM
  response : ExprM
  bindingType : Option WorkerBindingTypeM
deriving DecidableEq, Repr

/-- Embedding of `TryFrom<grpc_apidefinition::WorkerBinding> for
GolemWorkerBinding`: the binding type is read through the prost
accessor; the response is mandatory; a missing worker name is an error
for a `Default` binding but becomes the empty expression for a
`FileServer` binding; the component is mandatory; the idempotency key is
optional; errors of the sub-conversions propagate. -/
def tryFromWorkerBinding (v : GrpcWorkerBinding) :
    Except String GolemWorkerBinding :=
  let bt := bindingTypeAccessor v.bindingType
  match v.response with
  | none => Except.error "response is missing"
  | some (Except.error e) => Except.error e
  | some (Except.ok response) =>
    match
      (match v.workerName with
       | some wn => wn
       | none =>
         match bt with
         | WorkerBindingTypeM.defaultBinding =>
           Except.error "worker name is missing"
         | WorkerBindingTypeM.fileServer => Except.ok ExprM.emptyExpr) with
    | Except.error e => Except.error e
    | Except.ok workerName =>
      match v.component with
      | none => Except.error "component is missing"
      | some (Except.error e) => Except.error e
      | some (Except.ok componentId) =>
        match
          (match v.idempotencyKey with
           | none => Except.ok none
           | some (Except.error e) => Except.error e
           | some (Except.ok k) => Except.ok (some k)) with
        | Except.error e => Except.error e
        | Except.ok idempotencyKey =>
          Except.ok
            { componentId := componentId, workerName := workerName,
              idempotencyKey := idempotencyKey, response := response,
              bindingType := some bt }

/-- Whether an `Except` value is a success. -/
def exceptIsOk : Except ε α → Bool
  | Except.ok _ => true
  | Except.error _ => false

/-- Whether the abstracted idempotency-key sub-conversion succeeds (a
missing key is fine). -/
def idempotencyConvOk : Option (Except String ExprM) → Bool
  | none => true
  | some (Except.ok _) => true
  | some (Except.error _) => false

/-- A directory entry whose metadata probe fails while its file-type
probe succeeds, used to exhibit the silent-omission behaviour of
`convert_metadata`. -/
def c8BadEntry : DirEntryM :=
  { name := "f", fileType := Except.ok { isDir := false },
    metadata := Except.error { msg := "metadata io error" } }

/- ### Fuel management: proofs -/

/-- One valid fuel-management call preserves the bookkeeping
invariant. -/
theorem fuelWF_fuelStep (s : FuelState) (op : FuelOp) (hwf : fuelWF s)
    (hv : match op with
          | FuelOp.ret level => level ≤ s.lastLevel
          | _ => True) :
    fuelWF (fuelStep s op) := by
  obtain ⟨h1, h2⟩ := hwf
  cases op with
  | borrow g =>
    simp only [fuelStep, fuelBorrow, fuelWF] at *
    omega
  | borrowSync g =>
    simp only [fuelStep, fuelBorrow, fuelWF] at *
    omega
  | ret level =>
    simp only [fuelStep, fuelReturn, fuelWF] at *
    omega

/-- A valid sequence of fuel-management calls preserves the bookkeeping
invariant. -/
theorem fuelWF_fuelRun (ops : List FuelOp) (s : FuelState) (hwf : fuelWF s)
    (hv : fuelValid s ops = true) : fuelWF (fuelRun s ops) := by
  induction ops generalizing s with
  | nil => exact hwf
  | cons op rest ih =>
    simp only [fuelValid, Bool.and_eq_true] at hv
    have hstep : fuelWF (fuelStep s op) := by
      refine fuelWF_fuelStep s op hwf ?_
      cases op with
      | borrow g => trivial
      | borrowSync g => trivial
      | ret level =>
        have := hv.1
        simpa using this
    simpa [fuelRun, List.foldl_cons] using ih (fuelStep s op) hstep hv.2

/-- Validity of a call sequence carries over to each of its prefixes. -/
theorem fuelValid_take (i : Nat) (ops : List FuelOp) (s : FuelState)
    (hv : fuelValid s ops = true) : fuelValid s (ops.take i) = true := by
  induction ops generalizing i s with
  | nil => simp [List.take_nil, fuelValid]
  | cons op rest ih =>
    cases i with
    | zero => simp [fuelValid]
    | succ i =>
      simp only [List.take_succ_cons, fuelValid, Bool.and_eq_true] at hv ⊢
      exact ⟨hv.1, ih i (fuelStep s op) hv.2⟩

/-- C2: along every valid sequence of borrow_fuel / borrow_fuel_sync /
return_fuel calls starting from a fresh fuel state, the cumulative
borrowed fuel minus the cumulative returned fuel is nonnegative after
each call (here: after every prefix of the sequence), and
`is_out_of_fuel` is false immediately after a borrow whose grant covers
the deficit at the current level. -/
theorem c2_fuel_borrow_return_invariant (L0 : Int) (ops : List FuelOp)
    (i : Nat) (s : FuelState) (level : Int) (g : Nat)
    (hvalid : fuelValid (initFuel L0) ops = true)
    (hg : fuelDeficit s level ≤ (g : Int)) :
    (fuelRun (initFuel L0) (ops.take i)).returnedCum ≤
      (fuelRun (initFuel L0) (ops.take i)).borrowedCum
    ∧ is_out_of_fuel (fuelBorrow s g) level = false := by
  constructor
  · have h1 : fuelWF (initFuel L0) := by
      simp [fuelWF, initFuel]
    have h2 := fuelWF_fuelRun (ops.take i) (initFuel L0) h1
      (fuelValid_take i ops (initFuel L0) hvalid)
    have := h2.2
    omega
  · simp only [is_out_of_fuel, fuelBorrow, fuelDeficit] at *
    simp only [decide_eq_false_iff_not, not_le]
    omega

/-- C2 witness: the invariant and the post-borrow check evaluated on a
concrete valid call sequence. -/
theorem c2_fuel_borrow_return_invariant_witness :
    fuelValid (initFuel 1000) [FuelOp.borrow 500, FuelOp.ret 900] = true
    ∧ fuelDeficit (initFuel 1000) 1000 ≤ ((5 : Nat) : Int)
    ∧ ((fuelRun (initFuel 1000)
          ([FuelOp.borrow 500, FuelOp.ret 900].take 2)).returnedCum ≤
        (fuelRun (initFuel 1000)
          ([FuelOp.borrow 500, FuelOp.ret 900].take 2)).borrowedCum
       ∧ is_out_of_fuel (fuelBorrow (initFuel 1000) 5) 1000 = false) :=
  ⟨by decide, by decide,
   c2_fuel_borrow_return_invariant 1000 [FuelOp.borrow 500, FuelOp.ret 900]
     2 (initFuel 1000) 1000 5 (by decide) (by decide)⟩

/-- C7: `return_fuel` reports the unused remainder of the borrowed fuel
(borrowed minus consumed) when the limiter call succeeds — in
particular, 400 after borrowing 500 and consuming 100 — and it fails
only when the external limiter service failed. -/
theorem c7_return_fuel_remainder (L0 : Int) (b c : Nat)
    (lim2 : Except String Unit) (s2 : FuelState) (lvl2 : Int) (e : String)
    (hc : c ≤ b)
    (herr : return_fuel lim2 s2 lvl2 = Except.error e) :
    return_fuel (Except.ok ()) (fuelBorrow (initFuel L0) b) (L0 - c)
      = Except.ok
          ({ minLevel := L0 - c, lastLevel := L0 - c,
             borrowedCum := b, returnedCum := b - c }, b - c)
    ∧ lim2 = Except.error e := by
  constructor
  · simp only [return_fuel, fuelReturn, fuelBorrow, initFuel,
      Except.ok.injEq, Prod.mk.injEq, FuelState.mk.injEq]
    refine ⟨⟨trivial, trivial, ?_, ?_⟩, ?_⟩ <;> omega
  · cases lim2 with
    | error e2 =>
      simp only [return_fuel, Except.error.injEq] at herr
      rw [herr]
    | ok u => simp [return_fuel] at herr

/-- C7 witness: the spec scenario, 500 borrowed and 100 consumed gives
400 back. -/
theorem c7_return_fuel_remainder_witness :
    (100 : Nat) ≤ 500
    ∧ return_fuel (Except.error "limiter down") (initFuel 0) 0
        = Except.error "limiter down"
    ∧ (return_fuel (Except.ok ()) (fuelBorrow (initFuel 1000) 500) (1000 - 100)
        = Except.ok
            ({ minLevel := 1000 - 100, lastLevel := 1000 - 100,
               borrowedCum := 500, returnedCum := 500 - 100 }, 500 - 100)
       ∧ (Except.error "limiter down" : Except String Unit)
           = Except.error "limiter down") :=
  ⟨by decide, by decide,
   c7_return_fuel_remainder 1000 500 100 (Except.error "limiter down")
     (initFuel 0) 0 "limiter down" (by decide) (by decide)⟩

/- ### Invocation management: proofs -/

/-- C4: for every state of the invocation manager exactly one of
`is_live` and `is_replay` is true; a replay step that reaches the log
head makes the worker live; and a live worker stays live under every
non-suspending step. -/
theorem c4_live_replay_modes (u s t : InvState)
    (h1 : is_replay s = true) (h2 : s.oplogIdx + 1 = s.logHead)
    (h3 : is_live t = true) :
    ((is_live u = true ∧ is_replay u = false)
      ∨ (is_live u = false ∧ is_replay u = true))
    ∧ is_live (invStep s InvEvent.hostStep) = true
    ∧ is_live (invStep t InvEvent.hostStep) = true := by
  have hs : s.oplogIdx < s.logHead := by
    simpa [is_replay] using h1
  have ht : t.logHead ≤ t.oplogIdx := by
    simpa [is_live] using h3
  have ht2 : ¬t.oplogIdx < t.logHead := by omega
  refine ⟨?_, ?_, ?_⟩
  · simp only [is_live, is_replay, decide_eq_true_eq, decide_eq_false_iff_not,
      not_le, not_lt]
    omega
  · simp only [invStep, if_pos hs, is_live, decide_eq_true_eq]
    omega
  · simp only [invStep, if_neg ht2, is_live, decide_eq_true_eq]
    omega

/-- C4 witness: the mode dichotomy and the transitions evaluated on
concrete states. -/
theorem c4_live_replay_modes_witness :
    is_replay { oplogIdx := 0, logHead := 1 } = true
    ∧ (0 : Nat) + 1 = 1
    ∧ is_live { oplogIdx := 2, logHead := 2 } = true
    ∧ (((is_live { oplogIdx := 3, logHead := 5 } = true
          ∧ is_replay { oplogIdx := 3, logHead := 5 } = false)
        ∨ (is_live { oplogIdx := 3, logHead := 5 } = false
          ∧ is_replay { oplogIdx := 3, logHead := 5 } = true))
       ∧ is_live (invStep { oplogIdx := 0, logHead := 1 } InvEvent.hostStep) = true
       ∧ is_live (invStep { oplogIdx := 2, logHead := 2 } InvEvent.hostStep) = true) :=
  ⟨by decide, by decide, by decide,
   c4_live_replay_modes { oplogIdx := 3, logHead := 5 }
     { oplogIdx := 0, logHead := 1 } { oplogIdx := 2, logHead := 2 }
     (by decide) (by decide) (by decide)⟩

/- ### Invocation hooks: proofs -/

/-- C3: the failure-classification hook yields `fail` for a deliberate
program exit regardless of retry history; yields a backoff retry for
resource exhaustion below the configured bound and `fail` at the bound;
retries an unknown host error a small fixed number of times before
failing; and the dispatcher never passes an interrupt to the hook. -/
theorem c3_failure_classification (cfg : RetryConfig) (n0 n1 n2 n3 n4 : Nat)
    (k : InterruptKindM)
    (h1 : n1 < cfg.maxAttempts) (h2 : cfg.maxAttempts ≤ n2)
    (h3 : n3 < unknownErrorRetryBound) (h4 : unknownErrorRetryBound ≤ n4) :
    on_invocation_failure cfg n0 TrapTypeM.exitTrap = RetryDecisionM.fail
    ∧ on_invocation_failure cfg n1 TrapTypeM.resourceExhaustion
        = RetryDecisionM.retryAfterDelay (backoffDelay cfg n1)
    ∧ on_invocation_failure cfg n2 TrapTypeM.resourceExhaustion
        = RetryDecisionM.fail
    ∧ on_invocation_failure cfg n3 TrapTypeM.hostErrorUnknown
        = RetryDecisionM.retryAfterDelay (backoffDelay cfg n3)
    ∧ on_invocation_failure cfg n4 TrapTypeM.hostErrorUnknown
        = RetryDecisionM.fail
    ∧ failureHookTrap (InvocationOutcome.interrupted k) = none := by
  have h2n : ¬n2 < cfg.maxAttempts := by omega
  have h4n : ¬n4 < unknownErrorRetryBound := by omega
  refine ⟨rfl, ?_, ?_, ?_, ?_, rfl⟩
  · simp [on_invocation_failure, if_pos h1]
  · simp [on_invocation_failure, if_neg h2n]
  · simp [on_invocation_failure, if_pos h3]
  · simp [on_invocation_failure, if_neg h4n]

/-- C3 witness: the classification evaluated at a concrete
configuration and concrete retry counts. -/
theorem c3_failure_classification_witness :
    (2 : Nat) < 5 ∧ (5 : Nat) ≤ 7 ∧ (1 : Nat) < unknownErrorRetryBound
    ∧ unknownErrorRetryBound ≤ 3
    ∧ (on_invocation_failure { maxAttempts := 5, minDelayMs := 10, multiplier := 2 }
         0 TrapTypeM.exitTrap = RetryDecisionM.fail
       ∧ on_invocation_failure { maxAttempts := 5, minDelayMs := 10, multiplier := 2 }
           2 TrapTypeM.resourceExhaustion
           = RetryDecisionM.retryAfterDelay
               (backoffDelay { maxAttempts := 5, minDelayMs := 10, multiplier := 2 } 2)
       ∧ on_invocation_failure { maxAttempts := 5, minDelayMs := 10, multiplier := 2 }
           7 TrapTypeM.resourceExhaustion = RetryDecisionM.fail
       ∧ on_invocation_failure { maxAttempts := 5, minDelayMs := 10, multiplier := 2 }
           1 TrapTypeM.hostErrorUnknown
           = RetryDecisionM.retryAfterDelay
               (backoffDelay { maxAttempts := 5, minDelayMs := 10, multiplier := 2 } 1)
       ∧ on_invocation_failure { maxAttempts := 5, minDelayMs := 10, multiplier := 2 }
           3 TrapTypeM.hostErrorUnknown = RetryDecisionM.fail
       ∧ failureHookTrap (InvocationOutcome.interrupted InterruptKindM.interrupt)
           = none) :=
  ⟨by decide, by decide, by decide, by decide,
   c3_failure_classification { maxAttempts := 5, minDelayMs := 10, multiplier := 2 }
     0 2 7 1 3 InterruptKindM.interrupt (by decide) (by decide) (by decide) (by decide)⟩

/- ### Indexed resource store: proofs -/

/-- Dropping a key removes exactly that key's mapping. -/
theorem get_indexed_resource_drop (s : ResStore) (k k' : ResKey) :
    get_indexed_resource (drop_indexed_resource s k') k =
      if k' = k then none else get_indexed_resource s k := by
  induction s with
  | nil =>
    simp [drop_indexed_resource, get_indexed_resource]
  | cons hd tl ih =>
    obtain ⟨k2, v⟩ := hd
    by_cases h1 : k2 = k'
    · subst h1
      by_cases h2 : k2 = k
      · subst h2
        simp [drop_indexed_resource, get_indexed_resource, ih]
      · simp [drop_indexed_resource, get_indexed_resource, ih, h2]
    · by_cases h2 : k2 = k
      · subst h2
        have h3 : ¬k' = k2 := fun h => h1 h.symm
        simp [drop_indexed_resource, get_indexed_resource, h1, h3]
      · simp [drop_indexed_resource, get_indexed_resource, h1, h2, ih]

/-- Lookup after a sequence of store/drop calls is decided by the last
write affecting the key. -/
theorem get_indexed_resource_resRun (ops : List ResOp) (s : ResStore)
    (k : ResKey) :
    get_indexed_resource (resRun s ops) k
      = lastWrite (get_indexed_resource s k) ops k := by
  induction ops generalizing s with
  | nil => rfl
  | cons op rest ih =>
    have hstep : resRun s (op :: rest) = resRun (resApply s op) rest := rfl
    have hlast :
        lastWrite (get_indexed_resource s k) (op :: rest) k
          = lastWrite (get_indexed_resource (resApply s op) k) rest k := by
      cases op with
      | store k' v =>
        simp only [lastWrite, List.foldl_cons, resApply, store_indexed_resource,
          get_indexed_resource]
      | drop k' =>
        simp only [lastWrite, List.foldl_cons, resApply]
        rw [get_indexed_resource_drop]
    rw [hstep, hlast, ih]

/-- C5: lookup after any sequence of store/drop calls returns exactly
the value of the last store to that key when no drop followed it, and
absent otherwise (also before any store); textually different keys are
independent; and dropping is total (a lookup after a drop is always
absent, with no failure). -/
theorem c5_indexed_resource_store (ops : List ResOp) (k k2 : ResKey)
    (v : Nat) (s : ResStore) (hne : k2 ≠ k) :
    get_indexed_resource (resRun [] ops) k = lastWrite none ops k
    ∧ get_indexed_resource [] k = none
    ∧ get_indexed_resource (store_indexed_resource s k2 v) k
        = get_indexed_resource s k
    ∧ get_indexed_resource (drop_indexed_resource s k) k = none := by
  refine ⟨?_, rfl, ?_, ?_⟩
  · exact get_indexed_resource_resRun ops [] k
  · simp [store_indexed_resource, get_indexed_resource, hne]
  · rw [get_indexed_resource_drop]
    simp

/-- C5 witness: a concrete store/drop/store sequence and concrete
distinct textual keys. -/
theorem c5_indexed_resource_store_witness :
    ({ name := "stream", params := ["1"] } : ResKey)
        ≠ { name := "stream", params := ["01"] }
    ∧ (get_indexed_resource
         (resRun []
           [ResOp.store { name := "stream", params := ["01"] } 7,
            ResOp.drop { name := "stream", params := ["01"] },
            ResOp.store { name := "stream", params := ["01"] } 9])
         { name := "stream", params := ["01"] }
         = lastWrite none
             [ResOp.store { name := "stream", params := ["01"] } 7,
              ResOp.drop { name := "stream", params := ["01"] },
              ResOp.store { name := "stream", params := ["01"] } 9]
             { name := "stream", params := ["01"] }
       ∧ get_indexed_resource [] { name := "stream", params := ["01"] } = none
       ∧ get_indexed_resource
           (store_indexed_resource
             [({ name := "stream", params := ["01"] }, 9)]
             { name := "stream", params := ["1"] } 5)
           { name := "stream", params := ["01"] }
           = get_indexed_resource
               [({ name := "stream", params := ["01"] }, 9)]
               { name := "stream", params := ["01"] }
       ∧ get_indexed_resource
           (drop_indexed_resource
             [({ name := "stream", params := ["01"] }, 9)]
             { name := "stream", params := ["01"] })
           { name := "stream", params := ["01"] } = none) :=
  ⟨by decide,
   c5_indexed_resource_store
     [ResOp.store { name := "stream", params := ["01"] } 7,
      ResOp.drop { name := "stream", params := ["01"] },
      ResOp.store { name := "stream", params := ["01"] } 9]
     { name := "stream", params := ["01"] }
     { name := "stream", params := ["1"] } 5
     [({ name := "stream", params := ["01"] }, 9)] (by decide)⟩

/- ### Update management: proofs -/

/-- While a snapshotting call is in progress, attempted oplog writes are
all suppressed. -/
theorem attemptWrites_snapshotting (n : Nat) (s : SnapState)
    (h : s.snapshotting = true) : attemptWrites s n = s := by
  induction n generalizing s with
  | zero => rfl
  | succ n ih =>
    have hw : oplog_write s = s := by
      simp [oplog_write, h]
    simp only [attemptWrites, hw]
    exact ih s h

/-- C6: the snapshotting bracket always pairs its begin and end markers,
whatever the bracketed call does and however it ends (also on failure
outcomes), and no persistence write is observed strictly between the
begin and its matching end. -/
theorem c6_snapshotting_bracket (s : SnapState) (n : Nat)
    (outcome : Except String Unit) :
    (call_snapshotting_function s n outcome).1.log
        = s.log ++ [PEvent.beginSnap, PEvent.endSnap]
    ∧ (call_snapshotting_function s n outcome).1.snapshotting = false
    ∧ (call_snapshotting_function s n outcome).2 = outcome := by
  have h : attemptWrites (begin_call_snapshotting_function s) n
      = begin_call_snapshotting_function s :=
    attemptWrites_snapshotting n (begin_call_snapshotting_function s) rfl
  refine ⟨?_, ?_, rfl⟩
  · show (end_call_snapshotting_function
        (attemptWrites (begin_call_snapshotting_function s) n)).log
      = s.log ++ [PEvent.beginSnap, PEvent.endSnap]
    rw [h]
    simp [end_call_snapshotting_function, begin_call_snapshotting_function]
  · rfl

/- ### Replay determinism: proofs -/

/-- Replaying the events recorded by a live run of one invocation
reproduces the live output and consumes exactly those events, leaving
any later events untouched. -/
theorem replayRun_liveRun (oracle : Nat → Nat) (c : HostComp) (pos : Nat)
    (extra : List Nat) :
    replayRun c ((liveRun oracle c pos).2.1 ++ extra)
      = some ((liveRun oracle c pos).1, extra) := by
  induction c generalizing pos with
  | ret out => simp [liveRun, replayRun]
  | hostCall k ih =>
    simp only [liveRun, replayRun, List.cons_append]
    exact ih (oracle pos) (pos + 1)

/-- Replaying the events recorded by a live run of a whole invocation
sequence reproduces all live outputs and consumes exactly those events,
in order. -/
theorem replayWorker_liveWorker (oracle : Nat → Nat) (prog : List HostComp)
    (pos : Nat) (extra : List Nat) :
    replayWorker prog ((liveWorker oracle prog pos).2.1 ++ extra)
      = some ((liveWorker oracle prog pos).1, extra) := by
  induction prog generalizing pos with
  | nil => simp [liveWorker, replayWorker]
  | cons c cs ih =>
    simp only [liveWorker, replayWorker, List.append_assoc]
    rw [replayRun_liveRun oracle c pos]
    simp only []
    rw [ih (liveRun oracle c pos).2.2]

/-- C1: for every recorded sequence of invocations, replaying it against
a fresh instance via `prepare_instance` produces byte-identical outputs
and the same final worker status as the live run, and consumes the
recorded events in exactly their original order (exactly the recorded
prefix, leaving any suffix untouched). -/
theorem c1_replay_determinism (oracle : Nat → Nat) (pos : Nat)
    (prog : List HostComp) (extra : List Nat) :
    prepare_instance prog (liveWorker oracle prog pos).2.1
        = some ((liveWorker oracle prog pos).1, [])
    ∧ replayWorker prog ((liveWorker oracle prog pos).2.1 ++ extra)
        = some ((liveWorker oracle prog pos).1, extra)
    ∧ replayFinalStatus prog (liveWorker oracle prog pos).2.1
        = liveFinalStatus prog := by
  have h0 := replayWorker_liveWorker oracle prog pos []
  rw [List.append_nil] at h0
  refine ⟨h0, replayWorker_liveWorker oracle prog pos extra, ?_⟩
  simp [replayFinalStatus, liveFinalStatus, h0]

/- ### keyvalue::atomic host functions: proofs -/

/-- C9: the `keyvalue::atomic` `increment` and `compare_and_swap` host
functions never return a value for any bucket, key and arguments; when
the host-function permit is acquired they record the call metric and
then panic via `unimplemented!`. -/
theorem c9_kv_atomic_never_returns (p q : Except String Unit) (b : Nat)
    (key : String) (d o n : Nat) (v : Nat) (bb : Bool)
    (hq : q = Except.ok ()) :
    (kv_atomic_increment p b key d).result ≠ HostResult.ok v
    ∧ (kv_atomic_compare_and_swap p b key o n).result ≠ HostResult.ok bb
    ∧ kv_atomic_increment q b key d
        = { metrics := [("keyvalue::atomic", "increment")],
            result := HostResult.panicked "increment" }
    ∧ kv_atomic_compare_and_swap q b key o n
        = { metrics := [("keyvalue::atomic", "compare_and_swap")],
            result := HostResult.panicked "compare_and_swap" } := by
  subst hq
  refine ⟨?_, ?_, rfl, rfl⟩
  · cases p <;> simp [kv_atomic_increment]
  · cases p <;> simp [kv_atomic_compare_and_swap]

/-- C9 witness: the host functions evaluated with a failing and a
successful permit at concrete arguments. -/
theorem c9_kv_atomic_never_returns_witness :
    (Except.ok () : Except String Unit) = Except.ok ()
    ∧ ((kv_atomic_increment (Except.error "interrupted") 1 "k" 2).result
          ≠ HostResult.ok 0
       ∧ (kv_atomic_compare_and_swap (Except.error "interrupted") 1 "k" 3 4).result
          ≠ HostResult.ok false
       ∧ kv_atomic_increment (Except.ok ()) 1 "k" 2
          = { metrics := [("keyvalue::atomic", "increment")],
              result := HostResult.panicked "increment" }
       ∧ kv_atomic_compare_and_swap (Except.ok ()) 1 "k" 3 4
          = { metrics := [("keyvalue::atomic", "compare_and_swap")],
              result := HostResult.panicked "compare_and_swap" }) :=
  ⟨by decide,
   c9_kv_atomic_never_returns (Except.error "interrupted") (Except.ok ())
     1 "k" 2 3 4 0 false (by decide)⟩

/- ### FileSystemNode: proofs -/

/-- C8 counterexample: a directory entry whose metadata probe fails with
an I/O error is converted without any error surfacing — the listing
succeeds and the entry's permissions, last-modified time and size are
silently left unset, contradicting the claim that every I/O failure
surfaces as a structured filesystem error rather than a silent
omission (and that every entry carries permissions and last-modified
time). -/
theorem c8_metadata_failure_not_surfaced :
    c8BadEntry.metadata = Except.error { msg := "metadata io error" }
    ∧ get_files_grpc_internal [Except.ok c8BadEntry]
        = Except.ok [{ name := "f", nodeType := some NodeTypeM.file,
                       permissions := none, lastModified := none,
                       size := none }] := by
  exact ⟨rfl, rfl⟩

/-- C8 (amended): the read surface yields file contents as byte chunks
or a directory listing; a chunk-read failure and a directory-iteration
failure surface as structured filesystem errors; each listed entry
carries its name, carries a size only when it is a known file, and when
the per-entry metadata probe fails its permissions, last-modified time
and size are silently left unset rather than surfacing an error. -/
theorem c8_filesystem_read_surface (e : IoErrM) (bs : List Nat)
    (rest : List (Except IoErrM DirEntryM)) (entry entry2 : DirEntryM)
    (n : Nat) (err2 : IoErrM)
    (hsz : (convert_metadata entry).size = some n)
    (hmeta : entry2.metadata = Except.error err2) :
    chunk_to_grpc (Except.error e)
        = GetFileResult.failure (GolemErrorM.fileSystem e.msg)
    ∧ chunk_to_grpc (Except.ok bs) = GetFileResult.successFile bs
    ∧ get_files_grpc_internal (Except.error e :: rest)
        = Except.error (GolemErrorM.fileSystem e.msg)
    ∧ (convert_metadata entry).nodeType = some NodeTypeM.file
    ∧ (convert_metadata entry).name = entry.name
    ∧ (convert_metadata entry2).permissions = none
    ∧ (convert_metadata entry2).lastModified = none
    ∧ (convert_metadata entry2).size = none := by
  refine ⟨rfl, rfl, rfl, ?_, rfl, ?_, ?_, ?_⟩
  · cases hmd : entry.metadata with
    | error e2 => simp [convert_metadata, hmd] at hsz
    | ok m =>
      cases hft : entry.fileType with
      | error e1 => simp [convert_metadata, hft, hmd] at hsz
      | ok ft =>
        cases hdir : ft.isDir with
        | true => simp [convert_metadata, hft, hmd, hdir] at hsz
        | false => simp [convert_metadata, hft, hdir]
  · simp [convert_metadata, hmeta]
  · simp [convert_metadata, hmeta]
  · simp [convert_metadata, hmeta]

/-- C8 witness: the amended behaviour evaluated on concrete chunk and
entry outcomes. -/
theorem c8_filesystem_read_surface_witness :
    (convert_metadata
        { name := "a", fileType := Except.ok { isDir := false },
          metadata := Except.ok { modifiedSecs := some 5, size := 42 } }).size
      = some 42
    ∧ ({ name := "g", fileType := Except.ok { isDir := false },
         metadata := Except.error { msg := "io" } } : DirEntryM).metadata
        = Except.error { msg := "io" }
    ∧ (chunk_to_grpc (Except.error { msg := "disk" })
          = GetFileResult.failure (GolemErrorM.fileSystem "disk")
       ∧ chunk_to_grpc (Except.ok [1, 2])
          = GetFileResult.successFile [1, 2]
       ∧ get_files_grpc_internal [Except.error { msg := "disk" }]
          = Except.error (GolemErrorM.fileSystem "disk")
       ∧ (convert_metadata
            { name := "a", fileType := Except.ok { isDir := false },
              metadata := Except.ok { modifiedSecs := some 5, size := 42 } }).nodeType
          = some NodeTypeM.file
       ∧ (convert_metadata
            { name := "a", fileType := Except.ok { isDir := false },
              metadata := Except.ok { modifiedSecs := some 5, size := 42 } }).name
          = "a"
       ∧ (convert_metadata
            { name := "g", fileType := Except.ok { isDir := false },
              metadata := Except.error { msg := "io" } }).permissions = none
       ∧ (convert_metadata
            { name := "g", fileType := Except.ok { isDir := false },
              metadata := Except.error { msg := "io" } }).lastModified = none
       ∧ (convert_metadata
            { name := "g", fileType := Except.ok { isDir := false },
              metadata := Except.error { msg := "io" } }).size = none) :=
  ⟨by decide, by decide,
   c8_filesystem_read_surface { msg := "disk" } [1, 2] []
     { name := "a", fileType := Except.ok { isDir := false },
       metadata := Except.ok { modifiedSecs := some 5, size := 42 } }
     { name := "g", fileType := Except.ok { isDir := false },
       metadata := Except.error { msg := "io" } }
     42 { msg := "io" } (by decide) (by decide)⟩

/- ### WorkerBinding conversion: proofs -/

/-- C10: converting a protobuf `WorkerBinding` fails whenever the
response is missing and whenever the component is missing; when the
worker name is missing the conversion fails with a `Default` binding
type but succeeds with a `FileServer` binding type, producing the empty
worker-name expression, provided the remaining sub-conversions
succeed. -/
theorem c10_worker_binding_try_from (vr vc vd vf : GrpcWorkerBinding)
    (rexp : ExprM) (cid : Nat)
    (hr : vr.response = none)
    (hc : vc.component = none)
    (hd1 : vd.workerName = none)
    (hd2 : bindingTypeAccessor vd.bindingType = WorkerBindingTypeM.defaultBinding)
    (hf1 : vf.workerName = none)
    (hf2 : bindingTypeAccessor vf.bindingType = WorkerBindingTypeM.fileServer)
    (hf3 : vf.response = some (Except.ok rexp))
    (hf4 : vf.component = some (Except.ok cid))
    (hf5 : idempotencyConvOk vf.idempotencyKey = true) :
    exceptIsOk (tryFromWorkerBinding vr) = false
    ∧ exceptIsOk (tryFromWorkerBinding vc) = false
    ∧ exceptIsOk (tryFromWorkerBinding vd) = false
    ∧ ∃ g, tryFromWorkerBinding vf = Except.ok g
        ∧ g.workerName = ExprM.emptyExpr
        ∧ g.bindingType = some WorkerBindingTypeM.fileServer
        ∧ g.componentId = cid ∧ g.response = rexp := by
  refine ⟨?_, ?_, ?_, ?_⟩
  · simp [tryFromWorkerBinding, hr, exceptIsOk]
  · cases hres : vc.response with
    | none => simp [tryFromWorkerBinding, hres, exceptIsOk]
    | some r =>
      cases r with
      | error e => simp [tryFromWorkerBinding, hres, exceptIsOk]
      | ok resp =>
        cases hwn : vc.workerName with
        | some wn =>
          cases wn with
          | error e => simp [tryFromWorkerBinding, hres, hwn, exceptIsOk]
          | ok w => simp [tryFromWorkerBinding, hres, hwn, hc, exceptIsOk]
        | none =>
          cases hbt : bindingTypeAccessor vc.bindingType with
          | defaultBinding =>
            simp [tryFromWorkerBinding, hres, hwn, hbt, exceptIsOk]
          | fileServer =>
            simp [tryFromWorkerBinding, hres, hwn, hbt, hc, exceptIsOk]
  · cases hres : vd.response with
    | none => simp [tryFromWorkerBinding, hres, exceptIsOk]
    | some r =>
      cases r with
      | error e => simp [tryFromWorkerBinding, hres, exceptIsOk]
      | ok resp => simp [tryFromWorkerBinding, hres, hd1, hd2, exceptIsOk]
  · cases hik : vf.idempotencyKey with
    | none =>
      refine ⟨{ componentId := cid, workerName := ExprM.emptyExpr,
                idempotencyKey := none, response := rexp,
                bindingType := some WorkerBindingTypeM.fileServer }, ?_,
              rfl, rfl, rfl, rfl⟩
      simp [tryFromWorkerBinding, hf3, hf1, hf2, hf4, hik]
    | some kk =>
      cases kk with
      | error e => simp [idempotencyConvOk, hik] at hf5
      | ok key =>
        refine ⟨{ componentId := cid, workerName := ExprM.emptyExpr,
                  idempotencyKey := some key, response := rexp,
                  bindingType := some WorkerBindingTypeM.fileServer }, ?_,
                rfl, rfl, rfl, rfl⟩
        simp [tryFromWorkerBinding, hf3, hf1, hf2, hf4, hik]

/-- C10 witness: the conversion evaluated on four concrete protobuf
messages, one per clause. -/
theorem c10_worker_binding_try_from_witness :
    ({ component := some (Except.ok 1),
       workerName := some (Except.ok (ExprM.parsed "w")),
       idempotencyKey := none, response := none,
       bindingType := none } : GrpcWorkerBinding).response = none
    ∧ ({ component := none,
         workerName := some (Except.ok (ExprM.parsed "w")),
         idempotencyKey := none,
         response := some (Except.ok (ExprM.parsed "r")),
         bindingType := some 0 } : GrpcWorkerBinding).component = none
    ∧ ({ component := some (Except.ok 2), workerName := none,
         idempotencyKey := none,
         response := some (Except.ok (ExprM.parsed "r")),
         bindingType := none } : GrpcWorkerBinding).workerName = none
    ∧ bindingTypeAccessor (some 1) = WorkerBindingTypeM.fileServer
    ∧ (exceptIsOk (tryFromWorkerBinding
         { component := some (Except.ok 1),
           workerName := some (Except.ok (ExprM.parsed "w")),
           idempotencyKey := none, response := none,
           bindingType := none }) = false
       ∧ exceptIsOk (tryFromWorkerBinding
           { component := none,
             workerName := some (Except.ok (ExprM.parsed "w")),
             idempotencyKey := none,
             response := some (Except.ok (ExprM.parsed "r")),
             bindingType := some 0 }) = false
       ∧ exceptIsOk (tryFromWorkerBinding
           { component := some (Except.ok 2), workerName := none,
             idempotencyKey := none,
             response := some (Except.ok (ExprM.parsed "r")),
             bindingType := none }) = false
       ∧ ∃ g, tryFromWorkerBinding
             { component := some (Except.ok 7), workerName := none,
               idempotencyKey := none,
               response := some (Except.ok (ExprM.parsed "resp")),
               bindingType := some 1 } = Except.ok g
           ∧ g.workerName = ExprM.emptyExpr
           ∧ g.bindingType = some WorkerBindingTypeM.fileServer
           ∧ g.componentId = 7 ∧ g.response = ExprM.parsed "resp") :=
  ⟨by decide, by decide, by decide, by decide,
   c10_worker_binding_try_from
     { component := some (Except.ok 1),
       workerName := some (Except.ok (ExprM.parsed "w")),
       idempotencyKey := none, response := none, bindingType := none }
     { component := none,
       workerName := some (Except.ok (ExprM.parsed "w")),
       idempotencyKey := none,
       response := some (Except.ok (ExprM.parsed "r")),
       bindingType := some 0 }
     { component := some (Except.ok 2), workerName := none,
       idempotencyKey := none,
       response := some (Except.ok (ExprM.parsed "r")),
       bindingType := none }
     { component := some (Except.ok 7), workerName := none,
       idempotencyKey := none,
       response := some (Except.ok (ExprM.parsed "resp")),
       bindingType := some 1 }
     (ExprM.parsed "resp") 7
     (by decide) (by decide) (by decide) (by decide) (by decide)
     (by decide) (by decide) (by decide) (by decide)⟩
